import Mathlib

/-!
# raylib-cpp `Camera3D` wrapper (`include/Camera3D.hpp`)

A shallow embedding of the header-only class `raylib::Camera3D`, which derives from the C
structure `::Camera3D` and forwards every operation to one entry point of the C library.

* Objects live in a store `Ref → Camera3D`; a method receives the address `self` of its
  receiver and, where the C++ method returns `Camera3D&`, returns an address.
* The C library is not part of the header.  Its entry points are taken as a parameter
  (`Rl.Library`); every call is also appended to a call trace (`Rl.World.trace`) so that
  "which entry point, with which arguments" is observable.
* A C `float` is kept as its bit pattern: the header stores and copies floats and never
  computes with them.
-/

namespace Rl

/-- A C `float`, kept as its IEEE-754 binary32 bit pattern. -/
structure F32 where
  bits : Nat
deriving DecidableEq, Repr

/-- The literal `0.0f` (also the conversion of the integer literal `0` to `float`). -/
def F32.zero : F32 := ⟨0x00000000⟩

/-- The literal `1.0f`. -/
def F32.one : F32 := ⟨0x3F800000⟩

/-- Modelled from the spec: the structure `::Vector3` is declared in the library header, which is
absent from the sources; the spec calls it a 3D point, and the header initialises it from three
floats (`::Vector3{0.0f, 1.0f, 0.0f}`). -/
structure Vector3 where
  x : F32
  y : F32
  z : F32
deriving DecidableEq, Repr

/-- Modelled from the spec: the structure `::Color` is declared in the library header, which is
absent from the sources; the header initialises it from four byte values
(`{255, 255, 255, 255}`). -/
structure Color where
  r : Nat
  g : Nat
  b : Nat
  a : Nat
deriving DecidableEq, Repr

/-- Modelled from the spec: the raw camera structure `::Camera3D` is declared in the library
header, which is absent from the sources; spec §3 lists its attributes `position`, `target`, `up`,
`fovy`, `projection`, and the header initialises it in that order
(`::Camera3D{position, target, up, fovy, projection}`) with `float fovy` and `int projection`. -/
structure Camera3D where
  position : Vector3
  target : Vector3
  up : Vector3
  fovy : F32
  projection : Int
deriving DecidableEq, Repr

/-- Modelled from the spec: the enumerator `CAMERA_PERSPECTIVE` is declared in the library header,
which is absent from the sources; the spec names it the perspective projection mode.  No statement
below depends on its numeric value. -/
def CAMERA_PERSPECTIVE : Int := 0

/-- The library types the header only passes through (`::Texture2D`, `::Rectangle`, `::Vector2`,
`Matrix`, `Ray`) and the type of the library's global state.  Their declarations are not part of
the header, so they are parameters. -/
structure LibTypes where
  Texture2D : Type
  Rectangle : Type
  Vector2 : Type
  Matrix : Type
  Ray : Type
  Globals : Type

/-- Address of a camera object in the store. -/
abbrev Ref := Nat

/-- One call of a library entry point, with its arguments in the order of the C signature.
`UpdateCamera` receives a pointer; the record keeps the pointer and the value it points to at the
time of the call. -/
inductive LibCall (T : LibTypes) where
  | BeginMode3D (camera : Camera3D)
  | EndMode3D
  | GetCameraMatrix (camera : Camera3D)
  | SetCameraMode (camera : Camera3D) (mode : Int)
  | SetCameraAltControl (altKey : Int)
  | SetCameraSmoothZoomControl (szKey : Int)
  | SetCameraMoveControls (frontKey backKey rightKey leftKey upKey downKey : Int)
  | UpdateCamera (camera : Ref) (pointee : Camera3D)
  | GetMouseRay (mousePosition : T.Vector2) (camera : Camera3D)
  | GetWorldToScreen (position : Vector3) (camera : Camera3D)
  | DrawBillboard (camera : Camera3D) (texture : T.Texture2D) (center : Vector3) (size : F32)
      (tint : Color)
  | DrawBillboardRec (camera : Camera3D) (texture : T.Texture2D) (sourceRec : T.Rectangle)
      (center : Vector3) (size : T.Vector2) (tint : Color)

/-- Modelled from the spec: the C library behind the header is absent from the sources, so the
behaviour of its entry points is a parameter.  The shapes follow spec §4.1: the mode and key
setters, the 3D-scope brackets and the draw calls act on library-global state only;
`GetCameraMatrix` and `GetWorldToScreen` are pure functions of their arguments; `GetMouseRay` also
reads library state; `UpdateCamera` rewrites the camera it is pointed at and may change library
state. -/
structure Library (T : LibTypes) where
  BeginMode3D : Camera3D → T.Globals → T.Globals
  EndMode3D : T.Globals → T.Globals
  GetCameraMatrix : Camera3D → T.Matrix
  SetCameraMode : Camera3D → Int → T.Globals → T.Globals
  SetCameraAltControl : Int → T.Globals → T.Globals
  SetCameraSmoothZoomControl : Int → T.Globals → T.Globals
  SetCameraMoveControls : Int → Int → Int → Int → Int → Int → T.Globals → T.Globals
  UpdateCamera : Camera3D → T.Globals → Camera3D × T.Globals
  GetMouseRay : T.Vector2 → Camera3D → T.Globals → T.Ray
  GetWorldToScreen : Vector3 → Camera3D → T.Vector2
  DrawBillboard : Camera3D → T.Texture2D → Vector3 → F32 → Color → T.Globals → T.Globals
  DrawBillboardRec :
    Camera3D → T.Texture2D → T.Rectangle → Vector3 → T.Vector2 → Color → T.Globals → T.Globals

/-- The program state: the store of camera objects, the library-global state, and the trace of
library calls issued so far (oldest first). -/
structure World (T : LibTypes) where
  heap : Ref → Camera3D
  globals : T.Globals
  trace : List (LibCall T)

/-- Record a call and apply its effect on the library-global state. -/
def World.call {T : LibTypes} (w : World T) (c : LibCall T) (g : T.Globals) : World T :=
  { w with globals := g, trace := w.trace ++ [c] }

/-- Write the camera object at address `r`. -/
def World.store {T : LibTypes} (w : World T) (r : Ref) (c : Camera3D) : World T :=
  { w with heap := Function.update w.heap r c }

/-! ## Library entry points -/

/-- `void BeginMode3D(Camera3D camera)`. -/
def BeginMode3D {T : LibTypes} (L : Library T) (camera : Camera3D) (w : World T) : World T :=
  w.call (.BeginMode3D camera) (L.BeginMode3D camera w.globals)

/-- `void EndMode3D(void)`. -/
def EndMode3D {T : LibTypes} (L : Library T) (w : World T) : World T :=
  w.call .EndMode3D (L.EndMode3D w.globals)

/-- `Matrix GetCameraMatrix(Camera camera)`. -/
def GetCameraMatrix {T : LibTypes} (L : Library T) (camera : Camera3D) (w : World T) :
    T.Matrix × World T :=
  (L.GetCameraMatrix camera, w.call (.GetCameraMatrix camera) w.globals)

/-- `void SetCameraMode(Camera camera, int mode)`. -/
def SetCameraMode {T : LibTypes} (L : Library T) (camera : Camera3D) (mode : Int) (w : World T) :
    World T :=
  w.call (.SetCameraMode camera mode) (L.SetCameraMode camera mode w.globals)

/-- `void SetCameraAltControl(int altKey)`. -/
def SetCameraAltControl {T : LibTypes} (L : Library T) (altKey : Int) (w : World T) : World T :=
  w.call (.SetCameraAltControl altKey) (L.SetCameraAltControl altKey w.globals)

/-- `void SetCameraSmoothZoomControl(int szKey)`. -/
def SetCameraSmoothZoomControl {T : LibTypes} (L : Library T) (szKey : Int) (w : World T) :
    World T :=
  w.call (.SetCameraSmoothZoomControl szKey) (L.SetCameraSmoothZoomControl szKey w.globals)

/-- `void SetCameraMoveControls(int frontKey, int backKey, int rightKey, int leftKey, int upKey,
int downKey)`. -/
def SetCameraMoveControls {T : LibTypes} (L : Library T)
    (frontKey backKey rightKey leftKey upKey downKey : Int) (w : World T) : World T :=
  w.call (.SetCameraMoveControls frontKey backKey rightKey leftKey upKey downKey)
    (L.SetCameraMoveControls frontKey backKey rightKey leftKey upKey downKey w.globals)

/-- `void UpdateCamera(Camera *camera)`: the library reads and rewrites the pointed-to camera. -/
def UpdateCamera {T : LibTypes} (L : Library T) (camera : Ref) (w : World T) : World T :=
  { heap := Function.update w.heap camera (L.UpdateCamera (w.heap camera) w.globals).1
    globals := (L.UpdateCamera (w.heap camera) w.globals).2
    trace := w.trace ++ [.UpdateCamera camera (w.heap camera)] }

/-- `Ray GetMouseRay(Vector2 mousePosition, Camera camera)`. -/
def GetMouseRay {T : LibTypes} (L : Library T) (mousePosition : T.Vector2) (camera : Camera3D)
    (w : World T) : T.Ray × World T :=
  (L.GetMouseRay mousePosition camera w.globals,
    w.call (.GetMouseRay mousePosition camera) w.globals)

/-- `Vector2 GetWorldToScreen(Vector3 position, Camera camera)`. -/
def GetWorldToScreen {T : LibTypes} (L : Library T) (position : Vector3) (camera : Camera3D)
    (w : World T) : T.Vector2 × World T :=
  (L.GetWorldToScreen position camera, w.call (.GetWorldToScreen position camera) w.globals)

/-- `void DrawBillboard(Camera camera, Texture2D texture, Vector3 center, float size,
Color tint)`. -/
def DrawBillboard {T : LibTypes} (L : Library T) (camera : Camera3D) (texture : T.Texture2D)
    (center : Vector3) (size : F32) (tint : Color) (w : World T) : World T :=
  w.call (.DrawBillboard camera texture center size tint)
    (L.DrawBillboard camera texture center size tint w.globals)

/-- `void DrawBillboardRec(Camera camera, Texture2D texture, Rectangle sourceRec, Vector3 center,
Vector2 size, Color tint)`. -/
def DrawBillboardRec {T : LibTypes} (L : Library T) (camera : Camera3D) (texture : T.Texture2D)
    (sourceRec : T.Rectangle) (center : Vector3) (size : T.Vector2) (tint : Color)
    (w : World T) : World T :=
  w.call (.DrawBillboardRec camera texture sourceRec center size tint)
    (L.DrawBillboardRec camera texture sourceRec center size tint w.globals)

end Rl

namespace raylib.Camera3D

open Rl (F32 Vector3 Color LibTypes LibCall Library World Ref CAMERA_PERSPECTIVE)

/-! ## `class Camera3D : public ::Camera3D` -/

/-- The private `void set(const ::Camera3D& camera)`: five member assignments in source order, each
reading its field through the reference `camera` when it executes. -/
def set {T : LibTypes} (self : Ref) (w : World T) (camera : Ref) : World T :=
  let w1 := w.store self { w.heap self with position := (w.heap camera).position }
  let w2 := w1.store self { w1.heap self with target := (w1.heap camera).target }
  let w3 := w2.store self { w2.heap self with up := (w2.heap camera).up }
  let w4 := w3.store self { w3.heap self with fovy := (w3.heap camera).fovy }
  w4.store self { w4.heap self with projection := (w4.heap camera).projection }

/-- `Camera3D(const ::Camera3D& camera) { set(camera); }`, run on the storage at `self`. -/
def ctorCopy {T : LibTypes} (self : Ref) (w : World T) (camera : Ref) : World T :=
  set self w camera

/-- `Camera3D(::Vector3 position, ::Vector3 target = ::Vector3{0.0f, 0.0f, 0.0f},
::Vector3 up = ::Vector3{0.0f, 1.0f, 0.0f}, float fovy = 0, int projection = CAMERA_PERSPECTIVE)
: ::Camera3D{position, target, up, fovy, projection} {}`, run on the storage at `self`. -/
def ctor {T : LibTypes} (self : Ref) (w : World T) (position : Vector3)
    (target : Vector3 := ⟨F32.zero, F32.zero, F32.zero⟩)
    (up : Vector3 := ⟨F32.zero, F32.one, F32.zero⟩)
    (fovy : F32 := F32.zero)
    (projection : Int := CAMERA_PERSPECTIVE) : World T :=
  w.store self ⟨position, target, up, fovy, projection⟩

/-- `Camera3D() {}`, run on the storage at `self`: no member initialiser and an empty body, and
the base `::Camera3D` is a C structure without default member initialisers, so the five fields
are default-initialised and their value is indeterminate.  `indeterminate` is the value the
object turns out to hold after construction; nothing ties it to the previous contents of the
storage or to zero.  Nothing else is touched. -/
def ctorDefault {T : LibTypes} (self : Ref) (w : World T) (indeterminate : Rl.Camera3D) :
    World T :=
  w.store self indeterminate

/-! ### `GETTERSETTER(type, Method, name)` -/

/-- Modelled from the spec: the macro `GETTERSETTER` is defined in `raylib-cpp-utils.hpp`, which
is absent from the sources; spec §4.1: "get/set for each of the five attributes; setters perform
unchecked assignment".  `GETTERSETTER(::Vector3, Position, position)`, getter. -/
def GetPosition {T : LibTypes} (self : Ref) (w : World T) : Vector3 :=
  (w.heap self).position

/-- Modelled from the spec: `GETTERSETTER(::Vector3, Position, position)`, setter (the macro is
absent from the sources; unchecked assignment `position = value`). -/
def SetPosition {T : LibTypes} (self : Ref) (w : World T) (value : Vector3) : World T :=
  w.store self { w.heap self with position := value }

/-- Modelled from the spec: `GETTERSETTER(::Vector3, Target, target)`, getter (the macro is absent
from the sources). -/
def GetTarget {T : LibTypes} (self : Ref) (w : World T) : Vector3 :=
  (w.heap self).target

/-- Modelled from the spec: `GETTERSETTER(::Vector3, Target, target)`, setter (the macro is absent
from the sources; unchecked assignment `target = value`). -/
def SetTarget {T : LibTypes} (self : Ref) (w : World T) (value : Vector3) : World T :=
  w.store self { w.heap self with target := value }

/-- Modelled from the spec: `GETTERSETTER(::Vector3, Up, up)`, getter (the macro is absent from
the sources). -/
def GetUp {T : LibTypes} (self : Ref) (w : World T) : Vector3 :=
  (w.heap self).up

/-- Modelled from the spec: `GETTERSETTER(::Vector3, Up, up)`, setter (the macro is absent from
the sources; unchecked assignment `up = value`). -/
def SetUp {T : LibTypes} (self : Ref) (w : World T) (value : Vector3) : World T :=
  w.store self { w.heap self with up := value }

/-- Modelled from the spec: `GETTERSETTER(float, Fovy, fovy)`, getter (the macro is absent from
the sources). -/
def GetFovy {T : LibTypes} (self : Ref) (w : World T) : F32 :=
  (w.heap self).fovy

/-- Modelled from the spec: `GETTERSETTER(float, Fovy, fovy)`, setter (the macro is absent from
the sources; unchecked assignment `fovy = value`). -/
def SetFovy {T : LibTypes} (self : Ref) (w : World T) (value : F32) : World T :=
  w.store self { w.heap self with fovy := value }

/-- Modelled from the spec: `GETTERSETTER(int, Projection, projection)`, getter (the macro is
absent from the sources). -/
def GetProjection {T : LibTypes} (self : Ref) (w : World T) : Int :=
  (w.heap self).projection

/-- Modelled from the spec: `GETTERSETTER(int, Projection, projection)`, setter (the macro is
absent from the sources; unchecked assignment `projection = value`). -/
def SetProjection {T : LibTypes} (self : Ref) (w : World T) (value : Int) : World T :=
  w.store self { w.heap self with projection := value }

/-! ### Methods -/

/-- `Camera3D& operator=(const ::Camera3D& camera) { set(camera); return *this; }`. -/
def assign {T : LibTypes} (self : Ref) (w : World T) (camera : Ref) : Ref × World T :=
  (self, set self w camera)

/-- `Camera3D& BeginMode() { ::BeginMode3D(*this); return *this; }`. -/
def BeginMode {T : LibTypes} (L : Library T) (self : Ref) (w : World T) : Ref × World T :=
  (self, Rl.BeginMode3D L (w.heap self) w)

/-- `Camera3D& EndMode() { ::EndMode3D(); return *this; }`. -/
def EndMode {T : LibTypes} (L : Library T) (self : Ref) (w : World T) : Ref × World T :=
  (self, Rl.EndMode3D L w)

/-- `Matrix GetMatrix() const { return ::GetCameraMatrix(*this); }`. -/
def GetMatrix {T : LibTypes} (L : Library T) (self : Ref) (w : World T) : T.Matrix × World T :=
  Rl.GetCameraMatrix L (w.heap self) w

/-- `Camera3D& SetMode(int mode) { ::SetCameraMode(*this, mode); return *this; }`. -/
def SetMode {T : LibTypes} (L : Library T) (self : Ref) (w : World T) (mode : Int) :
    Ref × World T :=
  (self, Rl.SetCameraMode L (w.heap self) mode w)

/-- `Camera3D& SetAltControl(int altKey) { ::SetCameraAltControl(altKey); return *this; }`. -/
def SetAltControl {T : LibTypes} (L : Library T) (self : Ref) (w : World T) (altKey : Int) :
    Ref × World T :=
  (self, Rl.SetCameraAltControl L altKey w)

/-- `Camera3D& SetSmoothZoomControl(int szKey) { ::SetCameraSmoothZoomControl(szKey);
return *this; }`. -/
def SetSmoothZoomControl {T : LibTypes} (L : Library T) (self : Ref) (w : World T) (szKey : Int) :
    Ref × World T :=
  (self, Rl.SetCameraSmoothZoomControl L szKey w)

/-- `Camera3D& SetMoveControls(int frontKey, int backKey, int rightKey, int leftKey, int upKey,
int downKey) { ::SetCameraMoveControls(frontKey, backKey, rightKey, leftKey, upKey, downKey);
return *this; }`. -/
def SetMoveControls {T : LibTypes} (L : Library T) (self : Ref) (w : World T)
    (frontKey backKey rightKey leftKey upKey downKey : Int) : Ref × World T :=
  (self, Rl.SetCameraMoveControls L frontKey backKey rightKey leftKey upKey downKey w)

/-- `Camera3D& Update() { ::UpdateCamera(this); return *this; }`. -/
def Update {T : LibTypes} (L : Library T) (self : Ref) (w : World T) : Ref × World T :=
  (self, Rl.UpdateCamera L self w)

/-- `Ray GetMouseRay(::Vector2 mousePosition) const { return ::GetMouseRay(mousePosition,
*this); }`. -/
def GetMouseRay {T : LibTypes} (L : Library T) (self : Ref) (w : World T)
    (mousePosition : T.Vector2) : T.Ray × World T :=
  Rl.GetMouseRay L mousePosition (w.heap self) w

/-- `Vector2 GetWorldToScreen(::Vector3 position) const { return ::GetWorldToScreen(position,
*this); }`. -/
def GetWorldToScreen {T : LibTypes} (L : Library T) (self : Ref) (w : World T)
    (position : Vector3) : T.Vector2 × World T :=
  Rl.GetWorldToScreen L position (w.heap self) w

/-- `Camera3D& DrawBillboard(const ::Texture2D& texture, ::Vector3 center, float size,
::Color tint = {255, 255, 255, 255}) { ::DrawBillboard(*this, texture, center, size, tint);
return *this; }`.  The texture reference is read once, for the by-value library call. -/
def DrawBillboard {T : LibTypes} (L : Library T) (self : Ref) (w : World T)
    (texture : T.Texture2D) (center : Vector3) (size : F32)
    (tint : Color := ⟨255, 255, 255, 255⟩) : Ref × World T :=
  (self, Rl.DrawBillboard L (w.heap self) texture center size tint w)

/-- `Camera3D& DrawBillboard(const ::Texture2D& texture, ::Rectangle sourceRec, ::Vector3 center,
::Vector2 size, ::Color tint = {255, 255, 255, 255}) { ::DrawBillboardRec(*this, texture,
sourceRec, center, size, tint); return *this; }`: the second overload of `DrawBillboard`. -/
def DrawBillboardSrc {T : LibTypes} (L : Library T) (self : Ref) (w : World T)
    (texture : T.Texture2D) (sourceRec : T.Rectangle) (center : Vector3) (size : T.Vector2)
    (tint : Color := ⟨255, 255, 255, 255⟩) : Ref × World T :=
  (self, Rl.DrawBillboardRec L (w.heap self) texture sourceRec center size tint w)

end raylib.Camera3D

namespace Rl.Spec

/-! ## An explicit library state -/

/-- Modelled from the spec: `::Vector2` is declared in the library header, which is absent from
the sources; the spec calls it a 2D screen coordinate. -/
structure Vector2 where
  x : F32
  y : F32
deriving DecidableEq, Repr

/-- Modelled from the spec: `::Rectangle` is declared in the library header, which is absent from
the sources; the spec calls it a sub-rectangle of the source texture. -/
structure Rectangle where
  x : F32
  y : F32
  width : F32
  height : F32
deriving DecidableEq, Repr

/-- Modelled from the spec: a draw command queued in the library ("an immediate-mode draw command
queued in the external library"), one kind per billboard entry point; a texture is named by a
handle. -/
inductive DrawCmd where
  | billboard (camera : Camera3D) (texture : Nat) (center : Vector3) (size : F32) (tint : Color)
  | billboardRec (camera : Camera3D) (texture : Nat) (sourceRec : Rectangle) (center : Vector3)
      (size : Vector2) (tint : Color)
deriving DecidableEq, Repr

/-- Modelled from the spec: the library-global state named in spec §5 ("current camera-control
mode, key bindings, the active draw-command queue") and the §4.1 "inside/outside a 3D draw scope"
mode (`scope` holds the camera of the open scope).  The library is absent from the sources. -/
structure Globals where
  cameraMode : Int
  altControlKey : Int
  smoothZoomControlKey : Int
  moveControlKeys : List Int
  scope : Option Camera3D
  drawQueue : List DrawCmd
deriving DecidableEq, Repr

/-- The types of the explicit library: a matrix is its list of entries, a ray its origin and
direction. -/
def types : LibTypes where
  Texture2D := Nat
  Rectangle := Rectangle
  Vector2 := Vector2
  Matrix := List F32
  Ray := Vector3 × Vector3
  Globals := Globals

/-- Modelled from the spec: the library's entry points over the explicit state, following spec
§4.1: `SetCameraMode` sets the control mode, the three key setters register their key codes,
`BeginMode3D`/`EndMode3D` open and close the 3D scope, the billboard calls queue a draw command,
`UpdateCamera` moves the camera per the selected control mode.  The library is absent from the
sources and the spec leaves its mathematics open, so the transform, ray, projection and motion
functions are parameters. -/
def library (matrixOf : Camera3D → List F32) (rayOf : Vector2 → Camera3D → Vector3 × Vector3)
    (screenOf : Vector3 → Camera3D → Vector2) (motion : Int → Camera3D → Camera3D) :
    Library types where
  BeginMode3D := fun camera g => { g with scope := some camera }
  EndMode3D := fun g => { g with scope := none }
  GetCameraMatrix := matrixOf
  SetCameraMode := fun _ mode g => { g with cameraMode := mode }
  SetCameraAltControl := fun altKey g => { g with altControlKey := altKey }
  SetCameraSmoothZoomControl := fun szKey g => { g with smoothZoomControlKey := szKey }
  SetCameraMoveControls := fun frontKey backKey rightKey leftKey upKey downKey g =>
    { g with moveControlKeys := [frontKey, backKey, rightKey, leftKey, upKey, downKey] }
  UpdateCamera := fun camera g => (motion g.cameraMode camera, g)
  GetMouseRay := fun mousePosition camera _ => rayOf mousePosition camera
  GetWorldToScreen := screenOf
  DrawBillboard := fun camera texture center size tint g =>
    { g with drawQueue := g.drawQueue ++ [.billboard camera texture center size tint] }
  DrawBillboardRec := fun camera texture sourceRec center size tint g =>
    { g with drawQueue := g.drawQueue ++ [.billboardRec camera texture sourceRec center size tint] }

/-- A small instance of the explicit library for evaluation: the "matrix" lists the field of view,
the ray runs from the camera position to its target, every point projects to the origin, and
mode `1` moves the camera onto its target. -/
def demo : Library types :=
  library (fun camera => [camera.fovy]) (fun _ camera => (camera.position, camera.target))
    (fun _ _ => ⟨F32.zero, F32.zero⟩)
    (fun mode camera => if mode = 1 then { camera with position := camera.target } else camera)

/-- A camera with every field zero. -/
def zeroCamera : Camera3D :=
  ⟨⟨F32.zero, F32.zero, F32.zero⟩, ⟨F32.zero, F32.zero, F32.zero⟩,
    ⟨F32.zero, F32.zero, F32.zero⟩, F32.zero, 0⟩

/-- An initial world of the explicit library: every storage cell holds `fill`, no key is bound,
no scope is open, nothing is queued and no call has been made. -/
def world (fill : Camera3D) : World types where
  heap := fun _ => fill
  globals := ⟨0, 0, 0, [], none, []⟩
  trace := []

end Rl.Spec

namespace raylib.Camera3D

open Rl (F32 Vector3 Color LibTypes LibCall Library World Ref CAMERA_PERSPECTIVE)

/-! ## Sequences of writes to one camera -/

/-- A write to a camera object: one of the five setters, or assignment from the raw camera stored
at `camera`. -/
inductive Op where
  | SetPosition (value : Vector3)
  | SetTarget (value : Vector3)
  | SetUp (value : Vector3)
  | SetFovy (value : F32)
  | SetProjection (value : Int)
  | assign (camera : Ref)
deriving DecidableEq, Repr

/-- Run one write on the object at `self`. -/
def Op.run {T : LibTypes} (self : Ref) (w : World T) : Op → World T
  | .SetPosition value => raylib.Camera3D.SetPosition self w value
  | .SetTarget value => raylib.Camera3D.SetTarget self w value
  | .SetUp value => raylib.Camera3D.SetUp self w value
  | .SetFovy value => raylib.Camera3D.SetFovy self w value
  | .SetProjection value => raylib.Camera3D.SetProjection self w value
  | .assign camera => (raylib.Camera3D.assign self w camera).2

/-- Run a sequence of writes on the object at `self`, first to last. -/
def runOps {T : LibTypes} (self : Ref) (w : World T) (ops : List Op) : World T :=
  ops.foldl (Op.run self) w

/-- The value a write assigns to `position`, if it assigns one.  An assignment from another
object assigns that object's `position` (which the sequence never changes, `store` being the
state before the sequence); an assignment of the object to itself assigns what it already
holds. -/
def Op.position? (self : Ref) (store : Ref → Rl.Camera3D) : Op → Option Vector3
  | .SetPosition value => some value
  | .assign camera => if camera = self then none else some (store camera).position
  | _ => none

/-- The value a write assigns to `target`, if it assigns one. -/
def Op.target? (self : Ref) (store : Ref → Rl.Camera3D) : Op → Option Vector3
  | .SetTarget value => some value
  | .assign camera => if camera = self then none else some (store camera).target
  | _ => none

/-- The value a write assigns to `up`, if it assigns one. -/
def Op.up? (self : Ref) (store : Ref → Rl.Camera3D) : Op → Option Vector3
  | .SetUp value => some value
  | .assign camera => if camera = self then none else some (store camera).up
  | _ => none

/-- The value a write assigns to `fovy`, if it assigns one. -/
def Op.fovy? (self : Ref) (store : Ref → Rl.Camera3D) : Op → Option F32
  | .SetFovy value => some value
  | .assign camera => if camera = self then none else some (store camera).fovy
  | _ => none

/-- The value a write assigns to `projection`, if it assigns one. -/
def Op.projection? (self : Ref) (store : Ref → Rl.Camera3D) : Op → Option Int
  | .SetProjection value => some value
  | .assign camera => if camera = self then none else some (store camera).projection
  | _ => none

/-- A world of the explicit library with two camera objects: one constructed at address `0` with
position `(1,0,1)`, field of view `1.0f` and projection `1`, and its copy at address `1`. -/
def twoCameras : World Rl.Spec.types :=
  ctorCopy 1 (ctor 0 (Rl.Spec.world Rl.Spec.zeroCamera) ⟨F32.one, F32.zero, F32.one⟩
    ⟨F32.zero, F32.zero, F32.zero⟩ ⟨F32.zero, F32.one, F32.zero⟩ F32.one 1) 0

/-- The specification of a field after a sequence of writes, in the spec's words: "the value most
recently assigned to it, or its constructed value if never assigned".  `written?` tells what a
write assigns to the field; the search runs from the last write backwards. -/
def lastAssigned {α : Type} (written? : Op → Option α) (constructed : α) (ops : List Op) : α :=
  (ops.reverse.findSome? written?).getD constructed

end raylib.Camera3D

namespace raylib.Camera3D

open Rl (F32 Vector3 Color LibTypes LibCall Library World Ref CAMERA_PERSPECTIVE)

/-! ## Auxiliary facts -/

theorem store_heap_same {T : LibTypes} (w : World T) (r : Ref) (c : Rl.Camera3D) :
    (w.store r c).heap r = c := by
  simp [World.store]

theorem store_heap_other {T : LibTypes} (w : World T) (r s : Ref) (c : Rl.Camera3D)
    (h : s ≠ r) : (w.store r c).heap s = w.heap s := by
  simp [World.store, Function.update_noteq h]

theorem store_store {T : LibTypes} (w : World T) (r : Ref) (c d : Rl.Camera3D) :
    (w.store r c).store r d = w.store r d := by
  simp [World.store]

/-- The five member assignments of `set` amount to one store of the source object's value, also
when the source is the object itself. -/
theorem set_eq_store {T : LibTypes} (self : Ref) (w : World T) (camera : Ref) :
    set self w camera = w.store self (w.heap camera) := by
  by_cases h : camera = self
  · subst h
    simp [set, World.store]
  · simp [set, World.store, Function.update_noteq h]

/-! ## Construction and copy -/

/-- C1: for every raw camera value `(p, t, u, f, proj)`, stored at `camera`, and every prior state,
the wrapper copy-constructed from it and the wrapper after `operator=` from it both report
`p, t, u, f, proj` through the five getters, and the assigned object does not depend on the
state before the assignment. -/
theorem copy_and_assign_report_raw_fields {T : LibTypes} (self camera : Ref) (w : World T)
    (p t u : Vector3) (f : F32) (proj : Int) :
    (GetPosition self (ctorCopy self (w.store camera ⟨p, t, u, f, proj⟩) camera) = p
      ∧ GetTarget self (ctorCopy self (w.store camera ⟨p, t, u, f, proj⟩) camera) = t
      ∧ GetUp self (ctorCopy self (w.store camera ⟨p, t, u, f, proj⟩) camera) = u
      ∧ GetFovy self (ctorCopy self (w.store camera ⟨p, t, u, f, proj⟩) camera) = f
      ∧ GetProjection self (ctorCopy self (w.store camera ⟨p, t, u, f, proj⟩) camera) = proj)
    ∧ (GetPosition self (assign self (w.store camera ⟨p, t, u, f, proj⟩) camera).2 = p
      ∧ GetTarget self (assign self (w.store camera ⟨p, t, u, f, proj⟩) camera).2 = t
      ∧ GetUp self (assign self (w.store camera ⟨p, t, u, f, proj⟩) camera).2 = u
      ∧ GetFovy self (assign self (w.store camera ⟨p, t, u, f, proj⟩) camera).2 = f
      ∧ GetProjection self (assign self (w.store camera ⟨p, t, u, f, proj⟩) camera).2 = proj)
    ∧ ∀ v : World T,
        (assign self (v.store camera ⟨p, t, u, f, proj⟩) camera).2.heap self
          = (assign self (w.store camera ⟨p, t, u, f, proj⟩) camera).2.heap self := by
  simp [GetPosition, GetTarget, GetUp, GetFovy, GetProjection, ctorCopy, assign, set_eq_store,
    store_heap_same]

/-- C2: the camera constructed from a position `P` alone is the five-argument construction
`(P, (0,0,0), (0,1,0), 0, CAMERA_PERSPECTIVE)` and reports those five values, and a five-argument
construction `(P, U, V, F, proj)` stores each argument in the field of the same name. -/
theorem ctor_defaults_and_fields {T : LibTypes} (self : Ref) (w : World T) (P : Vector3) :
    ctor self w P
        = ctor self w P ⟨F32.zero, F32.zero, F32.zero⟩ ⟨F32.zero, F32.one, F32.zero⟩ F32.zero
            CAMERA_PERSPECTIVE
    ∧ (GetPosition self (ctor self w P) = P
      ∧ GetTarget self (ctor self w P) = ⟨F32.zero, F32.zero, F32.zero⟩
      ∧ GetUp self (ctor self w P) = ⟨F32.zero, F32.one, F32.zero⟩
      ∧ GetFovy self (ctor self w P) = F32.zero
      ∧ GetProjection self (ctor self w P) = CAMERA_PERSPECTIVE)
    ∧ ∀ (U V : Vector3) (F : F32) (proj : Int),
        GetPosition self (ctor self w P U V F proj) = P
        ∧ GetTarget self (ctor self w P U V F proj) = U
        ∧ GetUp self (ctor self w P U V F proj) = V
        ∧ GetFovy self (ctor self w P U V F proj) = F
        ∧ GetProjection self (ctor self w P U V F proj) = proj := by
  simp [GetPosition, GetTarget, GetUp, GetFovy, GetProjection, ctor, store_heap_same]

/-- C3, as stated, fails: the fields of a default-constructed camera are indeterminate, and one
value they can have, even on storage that was all zero, is field of view `1.0f` with
projection `7`; so it is not true that every default construction yields zero fields. -/
theorem ctorDefault_not_zeroed :
    GetFovy 0 (ctorDefault 0 (Rl.Spec.world Rl.Spec.zeroCamera)
        ⟨⟨F32.one, F32.zero, F32.zero⟩, ⟨F32.zero, F32.zero, F32.zero⟩,
          ⟨F32.zero, F32.one, F32.zero⟩, F32.one, 7⟩) = F32.one
    ∧ GetProjection 0 (ctorDefault 0 (Rl.Spec.world Rl.Spec.zeroCamera)
        ⟨⟨F32.one, F32.zero, F32.zero⟩, ⟨F32.zero, F32.zero, F32.zero⟩,
          ⟨F32.zero, F32.one, F32.zero⟩, F32.one, 7⟩) = 7
    ∧ ¬ ∀ indeterminate : Rl.Camera3D,
        GetPosition 0 (ctorDefault 0 (Rl.Spec.world Rl.Spec.zeroCamera) indeterminate)
            = ⟨F32.zero, F32.zero, F32.zero⟩
        ∧ GetTarget 0 (ctorDefault 0 (Rl.Spec.world Rl.Spec.zeroCamera) indeterminate)
            = ⟨F32.zero, F32.zero, F32.zero⟩
        ∧ GetUp 0 (ctorDefault 0 (Rl.Spec.world Rl.Spec.zeroCamera) indeterminate)
            = ⟨F32.zero, F32.zero, F32.zero⟩
        ∧ GetFovy 0 (ctorDefault 0 (Rl.Spec.world Rl.Spec.zeroCamera) indeterminate) = F32.zero
        ∧ GetProjection 0 (ctorDefault 0 (Rl.Spec.world Rl.Spec.zeroCamera) indeterminate)
            = 0 := by
  refine ⟨by decide, by decide, ?_⟩
  intro h
  have h7 := (h ⟨⟨F32.one, F32.zero, F32.zero⟩, ⟨F32.zero, F32.zero, F32.zero⟩,
    ⟨F32.zero, F32.one, F32.zero⟩, F32.one, 7⟩).2.2.2.2
  revert h7
  decide

/-- C3, amended: default construction does not initialise the fields, so they are not guaranteed
to be zero: position, target, up, fovy and projection are `(0,0,0)`, `(0,0,0)`, `(0,0,0)`, `0`
and `0` exactly when the indeterminate value the object holds happens to be all zero, whatever
the storage held before; the construction changes no other object, no library state, and makes
no library call. -/
theorem ctorDefault_zero_iff_indeterminate_zero {T : LibTypes} (self : Ref) (w : World T)
    (indeterminate : Rl.Camera3D) :
    ((GetPosition self (ctorDefault self w indeterminate) = ⟨F32.zero, F32.zero, F32.zero⟩
        ∧ GetTarget self (ctorDefault self w indeterminate) = ⟨F32.zero, F32.zero, F32.zero⟩
        ∧ GetUp self (ctorDefault self w indeterminate) = ⟨F32.zero, F32.zero, F32.zero⟩
        ∧ GetFovy self (ctorDefault self w indeterminate) = F32.zero
        ∧ GetProjection self (ctorDefault self w indeterminate) = 0)
      ↔ indeterminate = Rl.Spec.zeroCamera)
    ∧ Function.update (ctorDefault self w indeterminate).heap self (w.heap self) = w.heap
    ∧ (ctorDefault self w indeterminate).globals = w.globals
    ∧ (ctorDefault self w indeterminate).trace = w.trace := by
  refine ⟨?_, ?_, rfl, rfl⟩
  · cases indeterminate
    simp [GetPosition, GetTarget, GetUp, GetFovy, GetProjection, ctorDefault, store_heap_same,
      Rl.Spec.zeroCamera]
  · simp [ctorDefault, World.store]

/-! ## Accessors -/

/-- C4: for each of the five fields, the getter after the setter with value `V` returns exactly
`V`, whatever the object held before. -/
theorem getter_after_setter {T : LibTypes} (self : Ref) (w : World T) (V : Vector3) (F : F32)
    (P : Int) :
    GetPosition self (SetPosition self w V) = V
    ∧ GetTarget self (SetTarget self w V) = V
    ∧ GetUp self (SetUp self w V) = V
    ∧ GetFovy self (SetFovy self w F) = F
    ∧ GetProjection self (SetProjection self w P) = P := by
  simp [GetPosition, GetTarget, GetUp, GetFovy, GetProjection, SetPosition, SetTarget, SetUp,
    SetFovy, SetProjection, store_heap_same]

/-! ## Forwarding -/

/-- C5: every forwarding method makes exactly one library call, the call of its own entry
point, with the object's current value (its five fields, as the getters report them) wherever
the entry point takes a camera and with the caller's arguments unchanged and in order.  For each
method the whole outcome is given: the returned reference or library result, the camera store,
the library-global state as the library's entry point leaves it, and the call trace extended by
that one call. -/
theorem forwards_exactly_one_call {T : LibTypes} (L : Library T) (self : Ref) (w : World T)
    (mode altKey szKey frontKey backKey rightKey leftKey upKey downKey : Int)
    (mousePosition size2 : T.Vector2) (position center : Vector3) (texture : T.Texture2D)
    (sourceRec : T.Rectangle) (size : F32) (tint : Color) :
    w.heap self
        = ⟨GetPosition self w, GetTarget self w, GetUp self w, GetFovy self w,
            GetProjection self w⟩
    ∧ BeginMode L self w
        = (self, ⟨w.heap, L.BeginMode3D (w.heap self) w.globals,
            w.trace ++ [.BeginMode3D (w.heap self)]⟩)
    ∧ EndMode L self w = (self, ⟨w.heap, L.EndMode3D w.globals, w.trace ++ [.EndMode3D]⟩)
    ∧ GetMatrix L self w
        = (L.GetCameraMatrix (w.heap self),
            ⟨w.heap, w.globals, w.trace ++ [.GetCameraMatrix (w.heap self)]⟩)
    ∧ SetMode L self w mode
        = (self, ⟨w.heap, L.SetCameraMode (w.heap self) mode w.globals,
            w.trace ++ [.SetCameraMode (w.heap self) mode]⟩)
    ∧ SetAltControl L self w altKey
        = (self, ⟨w.heap, L.SetCameraAltControl altKey w.globals,
            w.trace ++ [.SetCameraAltControl altKey]⟩)
    ∧ SetSmoothZoomControl L self w szKey
        = (self, ⟨w.heap, L.SetCameraSmoothZoomControl szKey w.globals,
            w.trace ++ [.SetCameraSmoothZoomControl szKey]⟩)
    ∧ SetMoveControls L self w frontKey backKey rightKey leftKey upKey downKey
        = (self, ⟨w.heap,
            L.SetCameraMoveControls frontKey backKey rightKey leftKey upKey downKey w.globals,
            w.trace ++ [.SetCameraMoveControls frontKey backKey rightKey leftKey upKey downKey]⟩)
    ∧ Update L self w
        = (self, ⟨Function.update w.heap self (L.UpdateCamera (w.heap self) w.globals).1,
            (L.UpdateCamera (w.heap self) w.globals).2,
            w.trace ++ [.UpdateCamera self (w.heap self)]⟩)
    ∧ GetMouseRay L self w mousePosition
        = (L.GetMouseRay mousePosition (w.heap self) w.globals,
            ⟨w.heap, w.globals, w.trace ++ [.GetMouseRay mousePosition (w.heap self)]⟩)
    ∧ GetWorldToScreen L self w position
        = (L.GetWorldToScreen position (w.heap self),
            ⟨w.heap, w.globals, w.trace ++ [.GetWorldToScreen position (w.heap self)]⟩)
    ∧ DrawBillboard L self w texture center size tint
        = (self, ⟨w.heap, L.DrawBillboard (w.heap self) texture center size tint w.globals,
            w.trace ++ [.DrawBillboard (w.heap self) texture center size tint]⟩)
    ∧ DrawBillboardSrc L self w texture sourceRec center size2 tint
        = (self, ⟨w.heap,
            L.DrawBillboardRec (w.heap self) texture sourceRec center size2 tint w.globals,
            w.trace ++ [.DrawBillboardRec (w.heap self) texture sourceRec center size2 tint]⟩) := by
  refine ⟨rfl, rfl, rfl, rfl, rfl, rfl, rfl, rfl, rfl, rfl, rfl, rfl, rfl⟩

/-- C6: the (texture, center, scalar size, tint) overload issues the library's `DrawBillboard`
and the (texture, sourceRec, center, 2D size, tint) overload issues the distinct
`DrawBillboardRec`, each with the camera's current value followed by the caller's arguments in
order; an omitted tint is `(255, 255, 255, 255)` in both overloads. -/
theorem billboard_overloads_dispatch {T : LibTypes} (L : Library T) (self : Ref) (w : World T)
    (texture : T.Texture2D) (sourceRec : T.Rectangle) (center : Vector3) (size : F32)
    (size2 : T.Vector2) (tint : Color) :
    (DrawBillboard L self w texture center size tint).2
        = Rl.DrawBillboard L (w.heap self) texture center size tint w
    ∧ (DrawBillboard L self w texture center size tint).2.trace
        = w.trace ++ [.DrawBillboard (w.heap self) texture center size tint]
    ∧ (DrawBillboardSrc L self w texture sourceRec center size2 tint).2
        = Rl.DrawBillboardRec L (w.heap self) texture sourceRec center size2 tint w
    ∧ (DrawBillboardSrc L self w texture sourceRec center size2 tint).2.trace
        = w.trace ++ [.DrawBillboardRec (w.heap self) texture sourceRec center size2 tint]
    ∧ (DrawBillboard L self w texture center size).2.trace
        ≠ (DrawBillboardSrc L self w texture sourceRec center size2).2.trace
    ∧ DrawBillboard L self w texture center size
        = DrawBillboard L self w texture center size ⟨255, 255, 255, 255⟩
    ∧ DrawBillboardSrc L self w texture sourceRec center size2
        = DrawBillboardSrc L self w texture sourceRec center size2 ⟨255, 255, 255, 255⟩ := by
  refine ⟨rfl, rfl, rfl, rfl, ?_, rfl, rfl⟩
  simp [DrawBillboard, DrawBillboardSrc, Rl.DrawBillboard, Rl.DrawBillboardRec, World.call]

/-- C7: the chained call `SetMode(m).SetAltControl(k)`, which calls `SetAltControl` on the
reference `SetMode` returns, ends in the same world (camera store, library-global state, trace)
as `SetMode(m)` followed by `SetAltControl(k)` on the same object; both methods return the address
of the receiver, the camera store is unchanged, and in the explicit library the control mode is
then `m` and the alt key `k`. -/
theorem chained_mode_alt_is_sequential {T : LibTypes} (L : Library T) (self : Ref) (w : World T)
    (m k : Int) :
    SetAltControl L (SetMode L self w m).1 (SetMode L self w m).2 k
        = SetAltControl L self (SetMode L self w m).2 k
    ∧ (SetMode L self w m).1 = self
    ∧ (SetAltControl L self w k).1 = self
    ∧ (SetAltControl L (SetMode L self w m).1 (SetMode L self w m).2 k).1 = self
    ∧ (SetAltControl L (SetMode L self w m).1 (SetMode L self w m).2 k).2.heap = w.heap
    ∧ (SetAltControl L (SetMode L self w m).1 (SetMode L self w m).2 k).2.globals
        = L.SetCameraAltControl k (L.SetCameraMode (w.heap self) m w.globals)
    ∧ ∀ (matrixOf : Rl.Camera3D → List F32)
        (rayOf : Rl.Spec.Vector2 → Rl.Camera3D → Vector3 × Vector3)
        (screenOf : Vector3 → Rl.Camera3D → Rl.Spec.Vector2)
        (motion : Int → Rl.Camera3D → Rl.Camera3D) (v : World Rl.Spec.types),
        (SetAltControl (Rl.Spec.library matrixOf rayOf screenOf motion)
            (SetMode (Rl.Spec.library matrixOf rayOf screenOf motion) self v m).1
            (SetMode (Rl.Spec.library matrixOf rayOf screenOf motion) self v m).2 k).2.globals
          = { v.globals with cameraMode := m, altControlKey := k } := by
  refine ⟨rfl, rfl, rfl, rfl, rfl, rfl, ?_⟩
  intro matrixOf rayOf screenOf motion v
  rfl

/-- C8: two wrappers whose five fields agree get the same matrix from `GetMatrix`; the result is
the library's `GetCameraMatrix` of the five field values, and the call changes neither the camera
store nor the library-global state. -/
theorem GetMatrix_depends_on_fields_only {T : LibTypes} (L : Library T) (a b : Ref)
    (wa wb : World T)
    (hposition : GetPosition a wa = GetPosition b wb)
    (htarget : GetTarget a wa = GetTarget b wb)
    (hup : GetUp a wa = GetUp b wb)
    (hfovy : GetFovy a wa = GetFovy b wb)
    (hprojection : GetProjection a wa = GetProjection b wb) :
    (GetMatrix L a wa).1 = (GetMatrix L b wb).1
    ∧ (GetMatrix L a wa).1
        = L.GetCameraMatrix
            ⟨GetPosition a wa, GetTarget a wa, GetUp a wa, GetFovy a wa, GetProjection a wa⟩
    ∧ (GetMatrix L a wa).2.heap = wa.heap
    ∧ (GetMatrix L a wa).2.globals = wa.globals := by
  have hab : wa.heap a = wb.heap b := by
    cases hca : wa.heap a
    cases hcb : wb.heap b
    simp only [GetPosition, GetTarget, GetUp, GetFovy, GetProjection, hca, hcb]
      at hposition htarget hup hfovy hprojection
    simp [hposition, htarget, hup, hfovy, hprojection]
  refine ⟨?_, rfl, rfl, rfl⟩
  simp [GetMatrix, Rl.GetCameraMatrix, hab]

/-- Witness for C8: in a world where a camera was constructed at address `0` and copied to
address `1`, the two wrappers have equal fields and `GetMatrix` agrees on them. -/
theorem GetMatrix_depends_on_fields_only_witness :
    (GetPosition 0 twoCameras = GetPosition 1 twoCameras
      ∧ GetTarget 0 twoCameras = GetTarget 1 twoCameras
      ∧ GetUp 0 twoCameras = GetUp 1 twoCameras
      ∧ GetFovy 0 twoCameras = GetFovy 1 twoCameras
      ∧ GetProjection 0 twoCameras = GetProjection 1 twoCameras)
    ∧ (GetMatrix Rl.Spec.demo 0 twoCameras).1 = (GetMatrix Rl.Spec.demo 1 twoCameras).1
    ∧ (GetMatrix Rl.Spec.demo 0 twoCameras).1 = [F32.one] :=
  ⟨by decide,
    (GetMatrix_depends_on_fields_only Rl.Spec.demo 0 1 twoCameras twoCameras (by decide)
      (by decide) (by decide) (by decide) (by decide)).1,
    rfl⟩

/-! ## Frame -/

/-- C9: `BeginMode`, `EndMode`, `GetMatrix`, `SetMode`, `SetAltControl`, `SetSmoothZoomControl`,
`SetMoveControls`, `GetMouseRay`, `GetWorldToScreen` and both `DrawBillboard` overloads leave the
camera store, hence all five fields of the camera, unchanged.  `Update` hands the library the
object itself: afterwards the object holds what the library's `UpdateCamera` wrote, every other
object is unchanged, and the fields can change (in the explicit library, with control mode `1`,
the position moves from `(1,0,1)` to the target `(0,0,0)`). -/
theorem only_Update_changes_fields {T : LibTypes} (L : Library T) (self : Ref) (w : World T)
    (mode altKey szKey frontKey backKey rightKey leftKey upKey downKey : Int)
    (mousePosition size2 : T.Vector2) (position center : Vector3) (texture : T.Texture2D)
    (sourceRec : T.Rectangle) (size : F32) (tint : Color) :
    (BeginMode L self w).2.heap = w.heap
    ∧ (EndMode L self w).2.heap = w.heap
    ∧ (GetMatrix L self w).2.heap = w.heap
    ∧ (SetMode L self w mode).2.heap = w.heap
    ∧ (SetAltControl L self w altKey).2.heap = w.heap
    ∧ (SetSmoothZoomControl L self w szKey).2.heap = w.heap
    ∧ (SetMoveControls L self w frontKey backKey rightKey leftKey upKey downKey).2.heap = w.heap
    ∧ (GetMouseRay L self w mousePosition).2.heap = w.heap
    ∧ (GetWorldToScreen L self w position).2.heap = w.heap
    ∧ (DrawBillboard L self w texture center size tint).2.heap = w.heap
    ∧ (DrawBillboardSrc L self w texture sourceRec center size2 tint).2.heap = w.heap
    ∧ (Update L self w).2.heap
        = Function.update w.heap self (L.UpdateCamera (w.heap self) w.globals).1
    ∧ (GetPosition 0 (SetMode Rl.Spec.demo 0 twoCameras 1).2 = ⟨F32.one, F32.zero, F32.one⟩
      ∧ GetPosition 0 (Update Rl.Spec.demo 0 (SetMode Rl.Spec.demo 0 twoCameras 1).2).2
          = ⟨F32.zero, F32.zero, F32.zero⟩) := by
  refine ⟨rfl, rfl, rfl, rfl, rfl, rfl, rfl, rfl, rfl, rfl, rfl, rfl, ?_, ?_⟩ <;> decide

/-! ## Last write wins -/

theorem runOps_append {T : LibTypes} (self : Ref) (w : World T) (ops : List Op) (op : Op) :
    runOps self w (ops ++ [op]) = op.run self (runOps self w ops) := by
  simp [runOps, List.foldl_append]

theorem lastAssigned_append {α : Type} (written? : Op → Option α) (constructed : α)
    (ops : List Op) (op : Op) :
    lastAssigned written? constructed (ops ++ [op])
      = (written? op).getD (lastAssigned written? constructed ops) := by
  simp only [lastAssigned, List.reverse_append, List.reverse_cons, List.reverse_nil,
    List.nil_append, List.singleton_append, List.findSome?_cons]
  cases written? op <;> rfl

/-- A write to the object at `self` leaves every other object as it was. -/
theorem opRun_heap_other {T : LibTypes} (self : Ref) (w : World T) (op : Op) (r : Ref)
    (h : r ≠ self) : (op.run self w).heap r = w.heap r := by
  cases op <;>
    simp [Op.run, SetPosition, SetTarget, SetUp, SetFovy, SetProjection, assign, set_eq_store,
      store_heap_other _ _ _ _ h]

theorem runOps_heap_other {T : LibTypes} (self : Ref) (w : World T) (ops : List Op) (r : Ref)
    (h : r ≠ self) : (runOps self w ops).heap r = w.heap r := by
  induction ops using List.reverseRecOn with
  | nil => rfl
  | append_singleton ops op ih => rw [runOps_append, opRun_heap_other _ _ _ _ h, ih]

/-- The object at `self` after one more write, field by field: each field is the value the write
assigns to it, if any, and its value before the write otherwise. -/
theorem runOps_append_fields {T : LibTypes} (self : Ref) (w : World T) (ops : List Op) (op : Op) :
    GetPosition self (runOps self w (ops ++ [op]))
        = (op.position? self w.heap).getD (GetPosition self (runOps self w ops))
    ∧ GetTarget self (runOps self w (ops ++ [op]))
        = (op.target? self w.heap).getD (GetTarget self (runOps self w ops))
    ∧ GetUp self (runOps self w (ops ++ [op]))
        = (op.up? self w.heap).getD (GetUp self (runOps self w ops))
    ∧ GetFovy self (runOps self w (ops ++ [op]))
        = (op.fovy? self w.heap).getD (GetFovy self (runOps self w ops))
    ∧ GetProjection self (runOps self w (ops ++ [op]))
        = (op.projection? self w.heap).getD (GetProjection self (runOps self w ops)) := by
  rw [runOps_append]
  cases op with
  | assign camera =>
    by_cases h : camera = self
    · subst h
      simp [Op.run, assign, set_eq_store, store_heap_same, GetPosition, GetTarget, GetUp, GetFovy,
        GetProjection, Op.position?, Op.target?, Op.up?, Op.fovy?, Op.projection?]
    · simp [Op.run, assign, set_eq_store, store_heap_same, GetPosition, GetTarget, GetUp, GetFovy,
        GetProjection, Op.position?, Op.target?, Op.up?, Op.fovy?, Op.projection?, h,
        runOps_heap_other self w ops camera h]
  | _ =>
    simp [Op.run, SetPosition, SetTarget, SetUp, SetFovy, SetProjection, store_heap_same,
      GetPosition, GetTarget, GetUp, GetFovy, GetProjection, Op.position?, Op.target?, Op.up?,
      Op.fovy?, Op.projection?]

/-- C10: after any sequence of setter calls and raw-struct assignments on a camera, each of the
five fields holds the value most recently assigned to it, or the value it had before the sequence
if none was; a setter changes its own field only, and a second write to a field replaces the
first. -/
theorem fields_mirror_last_assigned {T : LibTypes} (self : Ref) (w : World T) (ops : List Op)
    (V V2 : Vector3) (F F2 : F32) (P P2 : Int) :
    (GetPosition self (runOps self w ops)
          = lastAssigned (Op.position? self w.heap) (GetPosition self w) ops
      ∧ GetTarget self (runOps self w ops)
          = lastAssigned (Op.target? self w.heap) (GetTarget self w) ops
      ∧ GetUp self (runOps self w ops) = lastAssigned (Op.up? self w.heap) (GetUp self w) ops
      ∧ GetFovy self (runOps self w ops)
          = lastAssigned (Op.fovy? self w.heap) (GetFovy self w) ops
      ∧ GetProjection self (runOps self w ops)
          = lastAssigned (Op.projection? self w.heap) (GetProjection self w) ops)
    ∧ ((SetPosition self w V).heap self = { w.heap self with position := V }
      ∧ (SetTarget self w V).heap self = { w.heap self with target := V }
      ∧ (SetUp self w V).heap self = { w.heap self with up := V }
      ∧ (SetFovy self w F).heap self = { w.heap self with fovy := F }
      ∧ (SetProjection self w P).heap self = { w.heap self with projection := P })
    ∧ (SetPosition self (SetPosition self w V) V2 = SetPosition self w V2
      ∧ SetTarget self (SetTarget self w V) V2 = SetTarget self w V2
      ∧ SetUp self (SetUp self w V) V2 = SetUp self w V2
      ∧ SetFovy self (SetFovy self w F) F2 = SetFovy self w F2
      ∧ SetProjection self (SetProjection self w P) P2 = SetProjection self w P2) := by
  refine ⟨?_, ?_, ?_⟩
  · induction ops using List.reverseRecOn with
    | nil => exact ⟨rfl, rfl, rfl, rfl, rfl⟩
    | append_singleton ops op ih =>
      obtain ⟨hp, ht, hu, hf, hj⟩ := runOps_append_fields self w ops op
      obtain ⟨ip, it, iu, i_f, ij⟩ := ih
      refine ⟨?_, ?_, ?_, ?_, ?_⟩
      · rw [hp, lastAssigned_append, ip]
      · rw [ht, lastAssigned_append, it]
      · rw [hu, lastAssigned_append, iu]
      · rw [hf, lastAssigned_append, i_f]
      · rw [hj, lastAssigned_append, ij]
  · simp [SetPosition, SetTarget, SetUp, SetFovy, SetProjection, store_heap_same]
  · simp [SetPosition, SetTarget, SetUp, SetFovy, SetProjection, store_heap_same, store_store]

end raylib.Camera3D
